import Mathlib

/-!
Verification development for the `shuttlify-hackathon-debug` CLI
(`src/main.rs`): repository-identity resolution from a git remote URL,
the Greptile API client (existence check, indexing, query), and the
conversation / query-request data model.

The Rust source is shallowly embedded: pure functions become Lean
functions, the HTTP layer is modelled by functions from a simulated
`HttpResponse` (status code and body) to the `Result` the Rust method
produces, and the headers each request attaches are modelled as the
explicit list of (name, value) pairs the reqwest builder chain adds.
-/

/-! ## Repository-identity resolver (`get_git_repo`, main.rs lines 53–67)

The Rust code compiles the regex
`https?:\/\/(?:www\.)?github\.com\/([\w.-]+\/[\w.-]+)\.git`,
runs an unanchored `captures` search over the `origin` remote URL, and
returns `caps.get(0).unwrap().as_str()` after `caps = ....unwrap()`.
The matcher below is a direct executable embedding of that one pattern
for ASCII inputs (`\w` restricted to ASCII word characters, which covers
every input considered here): leftmost search, greedy quantifiers with
minimal backtracking for the trailing `\.git` literal. -/

/-- The character class `[\w.-]` (ASCII fragment of Rust's `\w`, plus `.` and `-`). -/
def isWordDotDash (c : Char) : Bool :=
  c.isAlphanum || c = '_' || c = '.' || c = '-'

/-- Match a literal at the front of the input; return the number of
characters consumed and the remaining input. -/
def litP (lit : List Char) (s : List Char) : Option (Nat × List Char) :=
  match lit, s with
  | [], s => some (0, s)
  | c :: lit, d :: s =>
      if c = d then (litP lit s).map (fun p => (p.1 + 1, p.2)) else none
  | _ :: _, [] => none

/-- Does the input begin with the literal `.git`? -/
def hasDotGit (t : List Char) : Bool :=
  match t with
  | '.' :: 'g' :: 'i' :: 't' :: _ => true
  | _ => false

/-- Greedy backtracking for `[\w.-]+\.git`: the largest `k ≤ bound` such
that `.git` follows the first `k` characters. -/
def searchDown (t : List Char) : Nat → Option Nat
  | 0 => none
  | k + 1 => if hasDotGit (t.drop (k + 1)) then some (k + 1) else searchDown t k

/-- Match `github\.com\/([\w.-]+\/[\w.-]+)\.git` at the front of the input;
return the number of characters consumed and the capture-group-1 characters. -/
def matchCore (s : List Char) : Option (Nat × List Char) :=
  match litP ['g','i','t','h','u','b','.','c','o','m','/'] s with
  | none => none
  | some (n1, s1) =>
      let owner := s1.takeWhile isWordDotDash
      let s2 := s1.drop owner.length
      if owner.length = 0 then none
      else
        match s2 with
        | '/' :: s3 =>
            let bound := (s3.takeWhile isWordDotDash).length
            match searchDown s3 bound with
            | none => none
            | some k =>
                some (n1 + owner.length + 1 + k + 4, owner ++ '/' :: s3.take k)
        | _ => none

/-- Match `(?:www\.)?` followed by the core pattern, with backtracking on
the optional `www.`. -/
def matchTail (s : List Char) : Option (Nat × List Char) :=
  match litP ['w','w','w','.'] s with
  | some (n, s1) =>
      match matchCore s1 with
      | some (m, g) => some (n + m, g)
      | none => matchCore s
  | none => matchCore s

/-- Match `https?:\/\/` followed by the rest of the pattern at the front of
the input (greedy optional `s`). -/
def matchProto (s : List Char) : Option (Nat × List Char) :=
  match litP ['h','t','t','p','s',':','/','/'] s with
  | some (n, s1) => (matchTail s1).map (fun p => (n + p.1, p.2))
  | none =>
      match litP ['h','t','t','p',':','/','/'] s with
      | some (n, s1) => (matchTail s1).map (fun p => (n + p.1, p.2))
      | none => none

/-- Unanchored leftmost search, as `Regex::captures` performs: try the
pattern at each position left to right; on success return the whole
matched substring (capture group 0) and the capture-group-1 substring. -/
def findMatch (s : List Char) : Option (List Char × List Char) :=
  match matchProto s with
  | some (n, g) => some (s.take n, g)
  | none =>
      match s with
      | [] => none
      | _ :: rest => findMatch rest

/-- Outcome of `get_git_repo` on a given origin remote URL: either the
string it returns, or the panic raised by `.unwrap()` on a failed match. -/
inductive GitRepoOutcome
  | ok (repo : String)
  | panicked
deriving DecidableEq

/-- `get_git_repo` (main.rs 53–67), as a function of the origin remote URL:
`caps = regex.captures(&repo_url).unwrap()` panics when the pattern does
not match, and otherwise the function returns `caps.get(0)` — the WHOLE
matched substring, not capture group 1. -/
def get_git_repo (repo_url : String) : GitRepoOutcome :=
  match findMatch repo_url.toList with
  | some (whole, _) => .ok (String.mk whole)
  | none => .panicked

/-- Capture group 1 of the same regex search: the `<owner>/<name>` pair. -/
def regexGroupOne (repo_url : String) : Option String :=
  (findMatch repo_url.toList).map (fun p => String.mk p.2)

/-! ## Greptile API client (main.rs lines 69–150)

The client holds the two credential strings (the reqwest transport
handle carries no state that the claims concern). Each HTTP operation
is modelled two ways: the auth headers its reqwest builder chain
attaches, and the `Result` it produces from a simulated HTTP response. -/

/-- The two credentials held by `GreptileClient` (main.rs 69–73). -/
structure GreptileClient where
  github_token : String
  greptile_api_token : String
deriving DecidableEq

/-- `std::env::VarError` as produced by `std::env::var` for an absent
variable: `NotPresent` carries no variable name. (`NotUnicode` is not
modelled; all simulated environments are valid strings.) -/
inductive VarError
  | notPresent
deriving DecidableEq

/-- `GreptileClient::from_env` (main.rs 84–93) as a function of the process
environment: reads `GITHUB_ACCESS_TOKEN` then `GREPTILE_API_TOKEN`, each
`?`-propagating `VarError::NotPresent` when absent; performs no network
call (`reqwest::Client::new()` only constructs the handle). -/
def from_env (env : String → Option String) : Except VarError GreptileClient :=
  match env "GITHUB_ACCESS_TOKEN" with
  | none => .error .notPresent
  | some github_token =>
      match env "GREPTILE_API_TOKEN" with
      | none => .error .notPresent
      | some greptile_api_token => .ok ⟨github_token, greptile_api_token⟩

/-- A simulated HTTP response: status code and body text. -/
structure HttpResponse where
  status : Nat
  body : String
deriving DecidableEq

/-- The request URL built by `check_repo_exists` (main.rs 95–96): a
`format!` with no arguments — the `repo_id` parameter is never used. -/
def check_repo_exists_url (repo_id : String) : String :=
  "https://api.greptile.com/v2/repositories/github%253Amain%253Ashuttle-hq%252Fzero-to-production-newsletter-api"

/-- `check_repo_exists` (main.rs 95–110) as a function of the response:
non-200 status yields `Ok(false)` (after printing a message), 200 yields
`Ok(true)`; no error is ever produced from a received response. -/
def check_repo_exists (res : HttpResponse) : Except String Bool :=
  if res.status ≠ 200 then .ok false else .ok true

/-- `index_repo` (main.rs 112–131) as a function of the response: non-200
status yields `Err(body)`, 200 yields `Ok(())`. -/
def index_repo (res : HttpResponse) : Except String Unit :=
  if res.status ≠ 200 then .error res.body else .ok ()

/-- `query_repo` (main.rs 133–150) as a function of the response: the
method reads `response.text()` and returns it as `Ok` without ever
inspecting the status code. -/
def query_repo (res : HttpResponse) : Except String String :=
  .ok res.body

/-- Headers attached by `check_repo_exists`'s builder chain (main.rs
97–101): only `bearer_auth(&self.greptile_api_token)`, which sets
`Authorization: Bearer <token>`. -/
def check_repo_exists_headers (c : GreptileClient) : List (String × String) :=
  [("Authorization", "Bearer " ++ c.greptile_api_token)]

/-- Headers attached by `index_repo`'s builder chain (main.rs 116–121). -/
def index_repo_headers (c : GreptileClient) : List (String × String) :=
  [("Authorization", "Bearer " ++ c.greptile_api_token),
   ("Content-Type", "application/json"),
   ("X-Github-Token", c.github_token)]

/-- Headers attached by `query_repo`'s builder chain (main.rs 137–142). -/
def query_repo_headers (c : GreptileClient) : List (String × String) :=
  [("Authorization", "Bearer " ++ c.greptile_api_token),
   ("Content-Type", "application/json"),
   ("X-Github-Token", c.github_token)]

/-! ## Message and conversation model (main.rs lines 152–280) -/

/-- A JSON value, for stating what serde produces on the wire. -/
inductive Json
  | null
  | bool (b : Bool)
  | num (n : Int)
  | str (s : String)
  | arr (xs : List Json)
  | obj (fields : List (String × Json))

/-- `Role` (main.rs 242–248): three unit variants. -/
inductive Role
  | user
  | system
  | assistant
deriving DecidableEq

/-- The `Display` impl for `Role` (main.rs 250–258). -/
def roleDisplay (r : Role) : String :=
  match r with
  | .user => "user"
  | .system => "system"
  | .assistant => "assistant"

/-- Serde serialization of `Role` under `#[serde(untagged)]` (main.rs
240–241): the untagged representation serializes a variant as its bare
content, and a unit variant's content serializes as JSON `null` — for
every variant. -/
def roleToJson (r : Role) : Json :=
  match r with
  | .user => .null
  | .system => .null
  | .assistant => .null

/-- `GreptileMessage` (main.rs 210–215). -/
structure GreptileMessage where
  id : String
  content : String
  role : Role
deriving DecidableEq

/-- Serde serialization of `GreptileMessage` (derived `Serialize`, no
rename attributes): an object with the three field names, the `role`
field holding whatever `Role`'s serializer produces. -/
def messageToJson (m : GreptileMessage) : Json :=
  .obj [("id", .str m.id), ("content", .str m.content), ("role", roleToJson m.role)]

/-- `GreptileRepository` (main.rs 260–265). -/
structure GreptileRepository where
  remote : String
  branch : String
  repository : String
deriving DecidableEq

/-- `GreptileRepository::as_repo_id` (main.rs 276–278). -/
def as_repo_id (r : GreptileRepository) : String :=
  r.remote ++ ":" ++ r.branch ++ ":" ++ r.repository

/-- `GreptileQueryRequest` (main.rs 172–180). -/
structure GreptileQueryRequest where
  messages : List GreptileMessage
  repositories : List GreptileRepository
  session_id : String
  stream : Bool
  genius : Bool
deriving DecidableEq

namespace GreptileQueryRequest

/-- `GreptileQueryRequest::new` (main.rs 183–191). -/
def new (repository : GreptileRepository) (message : GreptileMessage) : GreptileQueryRequest :=
  ⟨[message], [repository], "", false, false⟩

/-- `GreptileQueryRequest::with_messages` (main.rs 193–201). -/
def with_messages (repository : GreptileRepository) (messages : List GreptileMessage) :
    GreptileQueryRequest :=
  ⟨messages, [repository], "", false, false⟩

/-- `GreptileQueryRequest::push_message` (main.rs 203–207): `Vec::push`
appends at the end and the updated request is returned. -/
def push_message (self : GreptileQueryRequest) (message : GreptileMessage) :
    GreptileQueryRequest :=
  { self with messages := self.messages ++ [message] }

end GreptileQueryRequest

/-! ## Claims -/

/-- Claim C1 (the code diverges from it): on the well-formed supported-provider
URL `https://github.com/acme/widgets.git`, the resolver returns the whole
matched URL (capture group 0), even though capture group 1 of its own regex
is exactly the `acme/widgets` pair the claim requires. -/
theorem C1_resolver_returns_whole_match :
    get_git_repo "https://github.com/acme/widgets.git" =
      .ok "https://github.com/acme/widgets.git" ∧
    get_git_repo "https://github.com/acme/widgets.git" ≠ .ok "acme/widgets" ∧
    regexGroupOne "https://github.com/acme/widgets.git" = some "acme/widgets" := by
  refine ⟨rfl, ?_, rfl⟩
  decide

/-- Claim C2 (the code diverges from it): on a simulated non-200 response
(status 500, body "oops"), `index_repo` fails with the body and
`check_repo_exists` returns `Ok(false)`, as the claim says — but
`query_repo` returns `Ok("oops")` instead of an error, because it never
inspects the status. -/
theorem C2_non200_query_repo_no_error :
    query_repo ⟨500, "oops"⟩ = .ok "oops" ∧
    index_repo ⟨500, "oops"⟩ = .error "oops" ∧
    check_repo_exists ⟨500, "oops"⟩ = .ok false := by
  refine ⟨rfl, rfl, rfl⟩

/-- Claim C3 (the code diverges from it): on an SSH-syntax URL, a
different-host URL, and a URL missing the `.git` suffix, the resolver does
not return an `UnparseableRemoteUrl` error — `captures(..).unwrap()`
panics. -/
theorem C3_unparseable_url_panics :
    get_git_repo "git@github.com:acme/widgets.git" = .panicked ∧
    get_git_repo "https://gitlab.com/acme/widgets.git" = .panicked ∧
    get_git_repo "https://github.com/acme/widgets" = .panicked := by
  refine ⟨rfl, rfl, rfl⟩

/-- Claim C4 (the code diverges from it): the existence-check request URL is
a constant string — two different repo ids produce the identical request
target, and the constant embeds a hard-coded repository, not the given
repo id. -/
theorem C4_existence_url_ignores_repo_id :
    check_repo_exists_url (as_repo_id ⟨"github", "main", "acme/widgets"⟩) =
      check_repo_exists_url (as_repo_id ⟨"github", "main", "other/project"⟩) ∧
    check_repo_exists_url "github:main:acme/widgets" =
      "https://api.greptile.com/v2/repositories/github%253Amain%253Ashuttle-hq%252Fzero-to-production-newsletter-api" := by
  refine ⟨rfl, rfl⟩

/-- Claim C5 (the code diverges from it): under `#[serde(untagged)]` the
`role` field of a serialized message is JSON `null` for every variant,
not the bare string (`"user"` here) that the `Display` impl and the claim
prescribe. -/
theorem C5_untagged_role_serializes_null :
    messageToJson ⟨"m1", "hello", Role.user⟩ =
      Json.obj [("id", Json.str "m1"), ("content", Json.str "hello"), ("role", Json.null)] ∧
    roleToJson Role.user ≠ Json.str (roleDisplay Role.user) := by
  exact ⟨rfl, nofun⟩

/-- Claim C6 counterexample: for the concrete client with github token
`"gh-tok"` and API token `"api-tok"`, the existence-check request carries
only the `Authorization` header — no `X-Github-Token` header — so not all
three operations attach both credentials. -/
theorem C6_counterexample_existence_check :
    (check_repo_exists_headers ⟨"gh-tok", "api-tok"⟩).map Prod.fst = ["Authorization"] ∧
    ("X-Github-Token", "gh-tok") ∉ check_repo_exists_headers ⟨"gh-tok", "api-tok"⟩ := by
  exact ⟨rfl, by decide⟩

/-- Claim C6 (amended): `index_repo` and `query_repo` attach both the bearer
authentication (service API token) and the `X-Github-Token` header
(source-control token); `check_repo_exists` attaches only the bearer
authentication. -/
theorem C6_auth_headers_amended (c : GreptileClient) :
    check_repo_exists_headers c = [("Authorization", "Bearer " ++ c.greptile_api_token)] ∧
    ("Authorization", "Bearer " ++ c.greptile_api_token) ∈ index_repo_headers c ∧
    ("X-Github-Token", c.github_token) ∈ index_repo_headers c ∧
    ("Authorization", "Bearer " ++ c.greptile_api_token) ∈ query_repo_headers c ∧
    ("X-Github-Token", c.github_token) ∈ query_repo_headers c := by
  refine ⟨rfl, ?_, ?_, ?_, ?_⟩ <;> simp [index_repo_headers, query_repo_headers]

/-- An environment in which only `GREPTILE_API_TOKEN` is set. -/
def envMissingGithub : String → Option String :=
  fun k => if k = "GREPTILE_API_TOKEN" then some "greptile-tok" else none

/-- An environment in which only `GITHUB_ACCESS_TOKEN` is set. -/
def envMissingGreptile : String → Option String :=
  fun k => if k = "GITHUB_ACCESS_TOKEN" then some "github-tok" else none

/-- Claim C7 counterexample: with the source-control token missing and with
the service API token missing, client construction fails with the very same
error value (`VarError::NotPresent` carries no variable name), so the error
cannot identify which credential is absent. -/
theorem C7_counterexample_error_identical :
    from_env envMissingGithub = .error VarError.notPresent ∧
    from_env envMissingGreptile = .error VarError.notPresent ∧
    from_env envMissingGithub = from_env envMissingGreptile := by
  refine ⟨rfl, rfl, rfl⟩

/-- Claim C7 (amended): if either required environment credential is absent,
client construction fails — before any network call, since construction is
a pure function of the environment — but with the nameless
`VarError::NotPresent`, which does not identify the missing credential. -/
theorem C7_missing_credential_fails (env : String → Option String)
    (h : env "GITHUB_ACCESS_TOKEN" = none ∨ env "GREPTILE_API_TOKEN" = none) :
    from_env env = .error VarError.notPresent := by
  cases hg : env "GITHUB_ACCESS_TOKEN" with
  | none => simp [from_env, hg]
  | some g =>
      cases hr : env "GREPTILE_API_TOKEN" with
      | none => simp [from_env, hg, hr]
      | some r =>
          rcases h with h | h
          · rw [hg] at h; exact Option.noConfusion h
          · rw [hr] at h; exact Option.noConfusion h

/-- Witness for C7: the hypothesis holds at the concrete environment missing
`GITHUB_ACCESS_TOKEN`, and the conclusion follows by the theorem. -/
theorem C7_missing_credential_fails_witness :
    from_env envMissingGithub = .error VarError.notPresent :=
  C7_missing_credential_fails envMissingGithub (Or.inl rfl)

/-- Claim C8: the query-request builders are pure total functions;
`new` wraps the single initiating message, `with_messages` keeps a
pre-existing message sequence exactly (order preserved), and both set
`session_id` to `""`, `stream` to `false`, and `genius` to `false`. -/
theorem C8_build_query_request_defaults (repo : GreptileRepository)
    (m : GreptileMessage) (ms : List GreptileMessage) :
    (GreptileQueryRequest.new repo m).messages = [m] ∧
    (GreptileQueryRequest.new repo m).repositories = [repo] ∧
    (GreptileQueryRequest.new repo m).session_id = "" ∧
    (GreptileQueryRequest.new repo m).stream = false ∧
    (GreptileQueryRequest.new repo m).genius = false ∧
    (GreptileQueryRequest.with_messages repo ms).messages = ms ∧
    (GreptileQueryRequest.with_messages repo ms).repositories = [repo] ∧
    (GreptileQueryRequest.with_messages repo ms).session_id = "" ∧
    (GreptileQueryRequest.with_messages repo ms).stream = false ∧
    (GreptileQueryRequest.with_messages repo ms).genius = false := by
  refine ⟨rfl, rfl, rfl, rfl, rfl, rfl, rfl, rfl, rfl, rfl⟩

/-- Claim C9: appending a message to a query request with N messages yields
N + 1 messages, the first N unchanged in content and order, with the new
message last. -/
theorem C9_push_message_appends (q : GreptileQueryRequest) (m : GreptileMessage) :
    (q.push_message m).messages.length = q.messages.length + 1 ∧
    (q.push_message m).messages.take q.messages.length = q.messages ∧
    (q.push_message m).messages.getLast? = some m := by
  refine ⟨?_, ?_, ?_⟩ <;> simp [GreptileQueryRequest.push_message]

/-- Claim C10: `push_message` changes only the `messages` field — the
repositories list, session id, stream flag, and genius flag are unchanged. -/
theorem C10_push_message_frame (q : GreptileQueryRequest) (m : GreptileMessage) :
    (q.push_message m).repositories = q.repositories ∧
    (q.push_message m).session_id = q.session_id ∧
    (q.push_message m).stream = q.stream ∧
    (q.push_message m).genius = q.genius := by
  refine ⟨rfl, rfl, rfl, rfl⟩
